import Mathlib

/-!
Shallow embedding of the risk-quantification engine of
`ThreatModelling_SystemRiskProfiling` (file `risk_tool.py`).

Python floats are modelled as rationals (`ℚ`), Python dicts with a fixed
set of optional keys as structures of `Option` fields, and fallible
conversions (Python `float(x)` raising on non-numeric input) as
`Except String`.  Randomness is modelled by an explicit draw function
`Nat → Nat → ℚ` giving the uniform draw of trial `t` for threat slot `i`.
-/

/-- A raw value found in a `dread` mapping: either a number, or a value
that Python `float()` cannot convert (modelling e.g. a string). -/
inductive DVal where
  | num (q : ℚ)
  | nonnum (s : String)
  deriving DecidableEq, Repr

/-- The `dread` mapping of a threat: the five named sub-ratings, each
possibly absent.  Only these five keys are ever read by the code. -/
structure Dread where
  damage : Option DVal
  reproducibility : Option DVal
  exploitability : Option DVal
  affected_users : Option DVal
  discoverability : Option DVal
  deriving DecidableEq, Repr

/-- The empty `dread` mapping, i.e. `{}` in Python. -/
def emptyDread : Dread := ⟨none, none, none, none, none⟩

/-- The values looked up by `calculate_dread_score`, in key order:
`dread.get(k, 0)` for `k` in damage, reproducibility, exploitability,
affected_users, discoverability. -/
def dreadValues (dread : Dread) : List (Option DVal) :=
  [dread.damage, dread.reproducibility, dread.exploitability,
   dread.affected_users, dread.discoverability]

/-- Models Python `float(dread.get(k, 0))`: a missing key defaults to `0`,
a numeric value converts to itself, a non-numeric value raises. -/
def floatOf : Option DVal → Except String ℚ
  | none => Except.ok 0
  | some (DVal.num q) => Except.ok q
  | some (DVal.nonnum s) => Except.error ("could not convert string to float: " ++ s)

/-- Models the comprehension `[float(dread.get(k, 0)) for k in keys]`:
values convert left to right, the first failure aborts. -/
def floatList : List (Option DVal) → Except String (List ℚ)
  | [] => Except.ok []
  | v :: vs =>
    match floatOf v with
    | Except.error e => Except.error e
    | Except.ok x =>
      match floatList vs with
      | Except.error e => Except.error e
      | Except.ok xs => Except.ok (x :: xs)

/-- `calculate_dread_score` from `risk_tool.py`:
`sum(values) / len(values) if values else 0.0` over the five key values. -/
def calculate_dread_score (dread : Dread) : Except String ℚ :=
  match floatList (dreadValues dread) with
  | Except.error e => Except.error e
  | Except.ok values =>
    Except.ok (if values.isEmpty then 0 else values.foldl (· + ·) 0 / (values.length : ℚ))

/-- `determine_severity` from `risk_tool.py`. -/
def determine_severity (score : ℚ) : String :=
  if score ≥ 8 then "Critical"
  else if score ≥ 6.5 then "High"
  else if score ≥ 5 then "Medium"
  else if score > 0 then "Low"
  else "None"

/-- A threat record: the fields of the catalog dict that the engine reads.
Unknown extra keys are never read, so they are not modelled. -/
structure Threat where
  id : String
  dread : Option Dread
  prob : Option ℚ
  score : Option ℚ
  severity : Option String
  deriving DecidableEq, Repr

/-- The body of the `enrich_threats` loop for a single threat:
`dread = threat.get("dread", {})`, then `threat["score"]` and
`threat["severity"]` are assigned; a score failure propagates. -/
def enrichThreat (threat : Threat) : Except String Threat :=
  match calculate_dread_score (threat.dread.getD emptyDread) with
  | Except.error e => Except.error e
  | Except.ok s =>
    Except.ok { threat with score := some s, severity := some (determine_severity s) }

/-- `enrich_threats` from `risk_tool.py`: scores every threat in order;
the first failure aborts the run. -/
def enrich_threats : List Threat → Except String (List Threat)
  | [] => Except.ok []
  | t :: ts =>
    match enrichThreat t with
    | Except.error e => Except.error e
    | Except.ok t' =>
      match enrich_threats ts with
      | Except.error e => Except.error e
      | Except.ok ts' => Except.ok (t' :: ts')

/-- An attack tree node: a dict with optional keys `ref`, `logic` and
`children` (`node.get` semantics). -/
inductive ATNode where
  | node (ref : Option String) (logic : Option String) (children : Option (List ATNode))

/-- `prod` from `risk_tool.py`: `result = 1.0; for x: result *= x`. -/
def prod (l : List ℚ) : ℚ := l.foldl (· * ·) 1

/-- The gate branch of `evaluate_attack_tree`: empty child list gives `0.0`,
`logic.upper() == "AND"` multiplies the child probabilities, anything else
(`"OR"` being the default for an absent key) takes the complement of the
product of complements. -/
def gateCombine (logic : Option String) (probabilities : List ℚ) : ℚ :=
  if probabilities.isEmpty then 0
  else if (logic.getD "OR").toUpper = "AND" then prod probabilities
  else 1 - prod (probabilities.map (fun p => 1 - p))

mutual

/-- `evaluate_attack_tree` on a non-null node: a node carrying a `ref` key
is looked up in the threat index (`prob` defaulting to `0.0`, an unresolved
reference giving `0.0`); otherwise the node is a gate over
`node.get("children", [])`. -/
def evalNode : ATNode → (String → Option Threat) → ℚ
  | ATNode.node (some r) _ _, threat_index =>
    match threat_index r with
    | some threat => threat.prob.getD 0
    | none => 0
  | ATNode.node none logic none, _ => gateCombine logic []
  | ATNode.node none logic (some children), threat_index =>
    gateCombine logic (evalList children threat_index)

/-- The child comprehension
`[evaluate_attack_tree(child, threat_index) for child in children]`. -/
def evalList : List ATNode → (String → Option Threat) → List ℚ
  | [], _ => []
  | c :: cs, threat_index => evalNode c threat_index :: evalList cs threat_index

end

/-- `evaluate_attack_tree` from `risk_tool.py`, including the null-node
guard. -/
def evaluate_attack_tree (node : Option ATNode) (threat_index : String → Option Threat) : ℚ :=
  match node with
  | none => 0
  | some n => evalNode n threat_index

/-- One Monte Carlo trial: `any(random.random() < p for p in probabilities)`
with the uniform draw of slot `i` supplied by `draw i`. -/
def trialHit (probabilities : List ℚ) (draw : Nat → ℚ) : Bool :=
  (List.range probabilities.length).any (fun i => decide (draw i < probabilities.getD i 0))

/-- `monte_carlo_compromise_probability` from `risk_tool.py`: threats whose
`prob` is `None`/absent are filtered out, the analytic value is
`1 - prod(1 - p)`, and the Monte Carlo component counts successful trials —
falling back to the analytic value when `iterations` is `0`. -/
def monte_carlo_compromise_probability (threats : List Threat) (iterations : Nat)
    (rng : Nat → Nat → ℚ) : ℚ × ℚ :=
  let probabilities := (threats.filter (fun t => t.prob.isSome)).map (fun t => t.prob.getD 0)
  let analytic := 1 - prod (probabilities.map (fun p => 1 - p))
  let successes :=
    ((List.range iterations).filter (fun t => trialHit probabilities (rng t))).length
  let monte_carlo :=
    if iterations > 0 then (successes : ℚ) / (iterations : ℚ) else analytic
  (analytic, monte_carlo)

/-- `BayesianThreat` from `risk_tool.py`: Beta shape parameters. -/
structure BayesianThreat where
  alpha : ℚ
  beta : ℚ
  deriving DecidableEq, Repr

/-- `BayesianThreat.update`: an observed success increments `alpha`,
an observed failure increments `beta`. -/
def BayesianThreat.update (bt : BayesianThreat) (observed_success : Bool) : BayesianThreat :=
  if observed_success then { bt with alpha := bt.alpha + 1 }
  else { bt with beta := bt.beta + 1 }

/-- The `mean` property: `alpha / (alpha + beta)`. -/
def BayesianThreat.mean (bt : BayesianThreat) : ℚ := bt.alpha / (bt.alpha + bt.beta)

/-- `monte_carlo_dynamic` from `risk_tool.py`: every trial re-samples each
threat state's Beta posterior (draws supplied by `betaDraw`), applies the
same any-threat-activates rule, and returns `successes / iterations` —
`0.0` when `iterations` is `0`.  The `threats` argument is unused, as in
the source. -/
def monte_carlo_dynamic (threats : List Threat) (bayesian_threats : List BayesianThreat)
    (iterations : Nat) (betaDraw : Nat → Nat → ℚ) (rng : Nat → Nat → ℚ) : ℚ :=
  let successes :=
    ((List.range iterations).filter (fun t =>
      let probs := (List.range bayesian_threats.length).map (betaDraw t)
      trialHit probs (rng t))).length
  if iterations > 0 then (successes : ℚ) / (iterations : ℚ) else 0

/-! Spec-side helper definitions: concrete records and ranks used to state
and instantiate the properties.  They introduce no behaviour of their own. -/

/-- A bare threat record carrying only an id and an optional probability. -/
def mkThreat (i : String) (p : Option ℚ) : Threat := ⟨i, none, p, none, none⟩

/-- The spec's worked example: threats with probabilities 0.1, 0.2, 0.3. -/
def exampleThreats3 : List Threat :=
  [mkThreat "T1" (some 0.1), mkThreat "T2" (some 0.2), mkThreat "T3" (some 0.3)]

/-- A fixed draw function used to instantiate the Monte Carlo estimators. -/
def rng0 : Nat → Nat → ℚ := fun _ _ => 1 / 2

/-- Numeric rank of a severity label, for stating monotonicity. -/
def sevRank (sev : String) : Nat :=
  if sev = "Critical" then 4
  else if sev = "High" then 3
  else if sev = "Medium" then 2
  else if sev = "Low" then 1
  else 0

/-- Whether a `dread` entry holds a value `float()` cannot convert. -/
def isNonNum : Option DVal → Bool
  | some (DVal.nonnum _) => true
  | _ => false

/-- An all-numeric `dread` mapping built from five optional rationals. -/
def mkNumDread (a b c u w : Option ℚ) : Dread :=
  ⟨a.map DVal.num, b.map DVal.num, c.map DVal.num, u.map DVal.num, w.map DVal.num⟩

/-- A `dread` mapping whose damage entry is non-numeric. -/
def dreadBad : Dread := ⟨some (DVal.nonnum "high"), none, none, none, none⟩

/-- A one-entry threat index resolving only the id `T1`. -/
def idx1 : String → Option Threat :=
  fun s => if s = "T1" then some (mkThreat "T1" (some 0.3)) else none

/-! General-purpose lemmas about the embedded operations. -/

theorem evalList_eq_map (cs : List ATNode) (idx : String → Option Threat) :
    evalList cs idx = cs.map (fun c => evalNode c idx) := by
  induction cs with
  | nil => rfl
  | cons c cs ih => simp [evalList, ih]

theorem prod_eq_list_prod (l : List ℚ) : prod l = l.prod :=
  List.prod_eq_foldl.symm

theorem list_isEmpty_map {α β : Type} (f : α → β) (l : List α) :
    (l.map f).isEmpty = l.isEmpty := by
  cases l <;> simp

/-- C1: a Gate node over children evaluating to `p_1..p_n` yields the
product `p_1*...*p_n` under `AND`, and `1 - (1-p_1)*...*(1-p_n)` under
`OR`, an absent `logic`, or any unrecognized string (`OR` is the default);
a Gate with zero children evaluates to `0.0` for both logics. -/
theorem C1_gate_eval (logic : Option String) (cs : List ATNode)
    (idx : String → Option Threat) :
    evaluate_attack_tree (some (ATNode.node none logic (some cs))) idx =
      if cs.isEmpty then 0
      else if (logic.getD "OR").toUpper = "AND" then
        (cs.map (fun c => evalNode c idx)).prod
      else 1 - (cs.map (fun c => 1 - evalNode c idx)).prod := by
  simp only [evaluate_attack_tree, evalNode, gateCombine, evalList_eq_map,
    prod_eq_list_prod, List.map_map, list_isEmpty_map, Function.comp_def]

/-- C10: a node carrying a `ref` key is evaluated purely as a Reference —
the looked-up threat's `prob` (or `0.0`) — and any `logic` or `children`
entries on that node are ignored. -/
theorem C10_ref_precedence (r : String) (logic : Option String)
    (children : Option (List ATNode)) (idx : String → Option Threat) :
    evaluate_attack_tree (some (ATNode.node (some r) logic children)) idx =
      match idx r with
      | some threat => threat.prob.getD 0
      | none => 0 := rfl

/-- C7: a null node evaluates to `0.0`; a Reference node whose `ref`
resolves returns that threat's `prob` (defaulting to `0.0` when absent);
an unresolved Reference returns `0.0` without error. -/
theorem C7_reference :
    (∀ idx : String → Option Threat, evaluate_attack_tree none idx = 0) ∧
    (∀ (r : String) (l : Option String) (c : Option (List ATNode))
        (idx : String → Option Threat) (t : Threat), idx r = some t →
        evaluate_attack_tree (some (ATNode.node (some r) l c)) idx = t.prob.getD 0) ∧
    (∀ (r : String) (l : Option String) (c : Option (List ATNode))
        (idx : String → Option Threat), idx r = none →
        evaluate_attack_tree (some (ATNode.node (some r) l c)) idx = 0) := by
  refine ⟨fun _ => rfl, fun r l c idx t h => ?_, fun r l c idx h => ?_⟩ <;>
    simp [evaluate_attack_tree, evalNode, h]

/-- Witness for C7: a Reference to a threat with prob `0.3` evaluates to
`0.3`, and a Reference to a non-existent id evaluates to `0.0`. -/
theorem C7_witness :
    evaluate_attack_tree (some (ATNode.node (some "T1") none none)) idx1 = 0.3 ∧
    evaluate_attack_tree (some (ATNode.node (some "missing") none none)) idx1 = 0 := by
  constructor
  · exact C7_reference.2.1 "T1" none none idx1 (mkThreat "T1" (some 0.3)) rfl
  · exact C7_reference.2.2 "missing" none none idx1 rfl

/-- C6: `determine_severity` classifies with inclusive lower bounds, the
highest matching tier winning — `s ≥ 8` Critical, `8 > s ≥ 6.5` High,
`6.5 > s ≥ 5` Medium, `5 > s > 0` Low, `s ≤ 0` None — and severity is a
monotone non-decreasing step function of the score. -/
theorem C6_severity :
    (∀ s : ℚ,
      (8 ≤ s → determine_severity s = "Critical") ∧
      (6.5 ≤ s → s < 8 → determine_severity s = "High") ∧
      (5 ≤ s → s < 6.5 → determine_severity s = "Medium") ∧
      (0 < s → s < 5 → determine_severity s = "Low") ∧
      (s ≤ 0 → determine_severity s = "None")) ∧
    (∀ s t : ℚ, s ≤ t →
      sevRank (determine_severity s) ≤ sevRank (determine_severity t)) := by
  constructor
  · intro s
    refine ⟨fun h => ?_, fun h1 h2 => ?_, fun h1 h2 => ?_, fun h1 h2 => ?_,
      fun h => ?_⟩ <;>
      (simp only [determine_severity]; split_ifs <;> first | rfl | linarith)
  · intro s t hst
    simp only [determine_severity]
    split_ifs <;> first | decide | linarith

/-- Witness for C6: the boundary score `8` is Critical, and severity rank
does not decrease from score `5` to score `8`. -/
theorem C6_witness :
    determine_severity 8 = "Critical" ∧
    sevRank (determine_severity 5) ≤ sevRank (determine_severity 8) :=
  ⟨(C6_severity.1 8).1 (by norm_num), C6_severity.2 5 8 (by norm_num)⟩

theorem probs_filterMap (threats : List Threat) :
    (threats.filter (fun t => t.prob.isSome)).map (fun t => t.prob.getD 0) =
      threats.filterMap Threat.prob := by
  induction threats with
  | nil => rfl
  | cons t ts ih =>
    cases h : t.prob with
    | none => simp [List.filter_cons, List.filterMap_cons, h, ih]
    | some q => simp [List.filter_cons, List.filterMap_cons, h, ih]

/-- C2: the analytic component of `monte_carlo_compromise_probability` is
`1 - ∏(1 - p_i)` over exactly the threats whose `prob` is present
(non-`None`); a threat with no probability is excluded, not treated as
probability `0`; and for probabilities `[0.1, 0.2, 0.3]` the analytic
value is `0.496`. -/
theorem C2_analytic :
    (∀ (threats : List Threat) (iterations : Nat) (rng : Nat → Nat → ℚ),
        (monte_carlo_compromise_probability threats iterations rng).1 =
          1 - ((threats.filterMap Threat.prob).map (fun p => 1 - p)).prod) ∧
    (∀ (threats : List Threat) (t : Threat) (iterations : Nat)
        (rng : Nat → Nat → ℚ), t.prob = none →
        (monte_carlo_compromise_probability (t :: threats) iterations rng).1 =
          (monte_carlo_compromise_probability threats iterations rng).1) ∧
    (∀ (iterations : Nat) (rng : Nat → Nat → ℚ),
        (monte_carlo_compromise_probability exampleThreats3 iterations rng).1 = 0.496) := by
  have key : ∀ (threats : List Threat) (iterations : Nat) (rng : Nat → Nat → ℚ),
      (monte_carlo_compromise_probability threats iterations rng).1 =
        1 - ((threats.filterMap Threat.prob).map (fun p => 1 - p)).prod := by
    intro threats iterations rng
    simp [monte_carlo_compromise_probability, probs_filterMap, prod_eq_list_prod]
  refine ⟨key, fun threats t iterations rng h => ?_, fun iterations rng => ?_⟩
  · rw [key, key, List.filterMap_cons_none h]
  · rw [key]
    norm_num [exampleThreats3, mkThreat, List.filterMap_cons]

/-- Witness for C2: prepending a threat whose `prob` is `None` leaves the
analytic component unchanged. -/
theorem C2_witness :
    (monte_carlo_compromise_probability (mkThreat "X" none :: exampleThreats3) 5 rng0).1 =
      (monte_carlo_compromise_probability exampleThreats3 5 rng0).1 :=
  C2_analytic.2.1 exampleThreats3 (mkThreat "X" none) 5 rng0 rfl

/-- Counterexample for C3: with `iterations = 0` the static estimator does
not return an invalid/undefined marker — its Monte Carlo component silently
falls back to the analytic value, here `0.496`. -/
theorem C3_counterexample :
    (monte_carlo_compromise_probability exampleThreats3 0 rng0).2 =
      (monte_carlo_compromise_probability exampleThreats3 0 rng0).1 ∧
    (monte_carlo_compromise_probability exampleThreats3 0 rng0).2 = 0.496 := by
  constructor
  · rfl
  · norm_num [monte_carlo_compromise_probability, exampleThreats3, mkThreat, prod]

/-- C3 (amended): with `iterations = 0` neither estimator runs a trial or
divides by zero, but the two zero-iteration policies differ:
`monte_carlo_compromise_probability` silently falls back to the analytic
value for its Monte Carlo component, while `monte_carlo_dynamic` returns
`0.0`. -/
theorem C3_amended :
    (∀ (threats : List Threat) (rng : Nat → Nat → ℚ),
        (monte_carlo_compromise_probability threats 0 rng).2 =
          (monte_carlo_compromise_probability threats 0 rng).1) ∧
    (∀ (threats : List Threat) (bayesian_threats : List BayesianThreat)
        (betaDraw rng : Nat → Nat → ℚ),
        monte_carlo_dynamic threats bayesian_threats 0 betaDraw rng = 0) :=
  ⟨fun _ _ => rfl, fun _ _ _ _ => rfl⟩

theorem floatList_error_of_nonnum (l : List (Option DVal))
    (h : l.any isNonNum = true) : ∃ msg, floatList l = Except.error msg := by
  induction l with
  | nil => simp at h
  | cons v vs ih =>
    match v with
    | some (DVal.nonnum s) =>
      exact ⟨"could not convert string to float: " ++ s, by simp [floatList, floatOf]⟩
    | none =>
      have h' : vs.any isNonNum = true := by simpa [isNonNum] using h
      obtain ⟨msg, hm⟩ := ih h'
      exact ⟨msg, by simp [floatList, floatOf, hm]⟩
    | some (DVal.num q) =>
      have h' : vs.any isNonNum = true := by simpa [isNonNum] using h
      obtain ⟨msg, hm⟩ := ih h'
      exact ⟨msg, by simp [floatList, floatOf, hm]⟩

/-- Counterexample for C4: a node with neither a `ref` key nor a
`children` key does not fail with a descriptive error — the code evaluates
it as an empty gate and returns the defaulted value `0.0`. -/
theorem C4_counterexample :
    evaluate_attack_tree (some (ATNode.node none none none)) (fun _ => none) = 0 := rfl

/-- C4 (amended): `calculate_dread_score` on a mapping containing a
non-numeric sub-rating raises a type-conversion error rather than coercing
to zero, but `evaluate_attack_tree` on a node with neither `ref` nor
`children` does not fail: it treats the node as an empty gate and returns
`0.0`. -/
theorem C4_amended :
    (∀ d : Dread, (dreadValues d).any isNonNum = true →
        ∃ msg, calculate_dread_score d = Except.error msg) ∧
    (∀ (logic : Option String) (idx : String → Option Threat),
        evaluate_attack_tree (some (ATNode.node none logic none)) idx = 0) := by
  constructor
  · intro d h
    obtain ⟨msg, hm⟩ := floatList_error_of_nonnum (dreadValues d) h
    exact ⟨msg, by simp [calculate_dread_score, hm]⟩
  · intro logic idx
    rfl

/-- Witness for C4 (amended): the mapping whose damage entry is the string
`"high"` makes `calculate_dread_score` fail, and a bare `AND` node with no
`children` key evaluates to `0.0`. -/
theorem C4_witness :
    (∃ msg, calculate_dread_score dreadBad = Except.error msg) ∧
    evaluate_attack_tree (some (ATNode.node none (some "AND") none)) (fun _ => none) = 0 :=
  ⟨C4_amended.1 dreadBad (by decide), C4_amended.2 (some "AND") (fun _ => none)⟩

theorem floatOf_map_num (a : Option ℚ) :
    floatOf (a.map DVal.num) = Except.ok (a.getD 0) := by
  cases a <;> rfl

theorem getD_bound (a : Option ℚ) (h : ∀ q ∈ a, 0 ≤ q ∧ q ≤ 10) :
    0 ≤ a.getD 0 ∧ a.getD 0 ≤ 10 := by
  cases a with
  | none => norm_num
  | some q => simpa using h q rfl

/-- C5: `calculate_dread_score` returns the arithmetic mean of the five
sub-ratings with missing keys contributing `0`; an empty mapping scores
`0.0` with no observable division by zero; and all present sub-ratings in
`[0, 10]` give a score in `[0, 10]`. -/
theorem C5_dread_score :
    (∀ a b c u w : Option ℚ,
        calculate_dread_score (mkNumDread a b c u w) =
          Except.ok ((a.getD 0 + b.getD 0 + c.getD 0 + u.getD 0 + w.getD 0) / 5)) ∧
    calculate_dread_score emptyDread = Except.ok 0 ∧
    (∀ a b c u w : Option ℚ,
        (∀ q ∈ a, 0 ≤ q ∧ q ≤ 10) → (∀ q ∈ b, 0 ≤ q ∧ q ≤ 10) →
        (∀ q ∈ c, 0 ≤ q ∧ q ≤ 10) → (∀ q ∈ u, 0 ≤ q ∧ q ≤ 10) →
        (∀ q ∈ w, 0 ≤ q ∧ q ≤ 10) →
        ∃ s, calculate_dread_score (mkNumDread a b c u w) = Except.ok s ∧
          0 ≤ s ∧ s ≤ 10) := by
  have mean : ∀ a b c u w : Option ℚ,
      calculate_dread_score (mkNumDread a b c u w) =
        Except.ok ((a.getD 0 + b.getD 0 + c.getD 0 + u.getD 0 + w.getD 0) / 5) := by
    intro a b c u w
    simp only [calculate_dread_score, dreadValues, mkNumDread, floatList, floatOf_map_num]
    norm_num
  refine ⟨mean, ?_, fun a b c u w ha hb hc hu hw => ?_⟩
  · have h := mean none none none none none
    simpa [emptyDread, mkNumDread] using h
  · refine ⟨_, mean a b c u w, ?_, ?_⟩
    · have := getD_bound a ha
      have := getD_bound b hb
      have := getD_bound c hc
      have := getD_bound u hu
      have := getD_bound w hw
      linarith
    · have := getD_bound a ha
      have := getD_bound b hb
      have := getD_bound c hc
      have := getD_bound u hu
      have := getD_bound w hw
      linarith

/-- Witness for C5: a mapping with sub-ratings `8, 6, 10, 2` and one
missing key scores within `[0, 10]`. -/
theorem C5_witness :
    ∃ s, calculate_dread_score (mkNumDread (some 8) (some 6) none (some 10) (some 2)) =
        Except.ok s ∧ 0 ≤ s ∧ s ≤ 10 :=
  C5_dread_score.2.2 (some 8) (some 6) none (some 10) (some 2)
    (by simp only [Option.mem_def, Option.some.injEq]; rintro q rfl; norm_num)
    (by simp only [Option.mem_def, Option.some.injEq]; rintro q rfl; norm_num)
    (by simp)
    (by simp only [Option.mem_def, Option.some.injEq]; rintro q rfl; norm_num)
    (by simp only [Option.mem_def, Option.some.injEq]; rintro q rfl; norm_num)

theorem foldl_update_alpha (obs : List Bool) :
    ∀ init : BayesianThreat,
      (obs.foldl BayesianThreat.update init).alpha = init.alpha + obs.count true := by
  induction obs with
  | nil => intro init; simp
  | cons b obs ih =>
    intro init
    cases b <;>
      (simp [List.foldl_cons, BayesianThreat.update, ih, List.count_cons]; try ring)

theorem foldl_update_beta (obs : List Bool) :
    ∀ init : BayesianThreat,
      (obs.foldl BayesianThreat.update init).beta = init.beta + obs.count false := by
  induction obs with
  | nil => intro init; simp
  | cons b obs ih =>
    intro init
    cases b <;>
      (simp [List.foldl_cons, BayesianThreat.update, ih, List.count_cons]; try ring)

/-- C8: `update true` increments `alpha` by exactly `1` leaving `beta`
unchanged, `update false` increments `beta` by exactly `1` leaving `alpha`
unchanged, positivity of both parameters is preserved, `mean` equals
`alpha / (alpha + beta)`, and from the `(1, 1)` prior any sequence of `2`
successes and `3` failures yields mean `3/7`. -/
theorem C8_bayesian :
    (∀ bt : BayesianThreat,
        (bt.update true).alpha = bt.alpha + 1 ∧ (bt.update true).beta = bt.beta ∧
        (bt.update false).beta = bt.beta + 1 ∧ (bt.update false).alpha = bt.alpha) ∧
    (∀ (bt : BayesianThreat) (b : Bool), 0 < bt.alpha → 0 < bt.beta →
        0 < (bt.update b).alpha ∧ 0 < (bt.update b).beta) ∧
    (∀ bt : BayesianThreat, bt.mean = bt.alpha / (bt.alpha + bt.beta)) ∧
    (∀ obs : List Bool, obs.count true = 2 → obs.count false = 3 →
        (obs.foldl BayesianThreat.update ⟨1, 1⟩).mean = 3 / 7) := by
  refine ⟨fun bt => ⟨rfl, rfl, rfl, rfl⟩,
    fun bt b ha hb => ?_, fun bt => rfl, fun obs ht hf => ?_⟩
  · cases b <;> constructor <;> simp [BayesianThreat.update] <;> linarith
  · have ha := foldl_update_alpha obs ⟨1, 1⟩
    have hb := foldl_update_beta obs ⟨1, 1⟩
    rw [ht] at ha
    rw [hf] at hb
    simp only [BayesianThreat.mean, ha, hb]
    norm_num

/-- Witness for C8: one update preserves positivity from the `(1, 1)`
prior, and the observation sequence `[T, T, F, F, F]` yields mean `3/7`. -/
theorem C8_witness :
    (0 < ((BayesianThreat.mk 1 1).update true).alpha ∧
      0 < ((BayesianThreat.mk 1 1).update true).beta) ∧
    ([true, true, false, false, false].foldl BayesianThreat.update ⟨1, 1⟩).mean = 3 / 7 :=
  ⟨C8_bayesian.2.1 ⟨1, 1⟩ true (by norm_num) (by norm_num),
    C8_bayesian.2.2.2 [true, true, false, false, false] (by decide) (by decide)⟩

theorem enrichThreat_idem (t t' : Threat) (h : enrichThreat t = Except.ok t') :
    enrichThreat t' = Except.ok t' := by
  unfold enrichThreat at h ⊢
  cases hc : calculate_dread_score (t.dread.getD emptyDread) with
  | error e => rw [hc] at h; exact absurd h (by simp)
  | ok s =>
    rw [hc] at h
    simp only [Except.ok.injEq] at h
    subst h
    rw [hc]

/-- C9: `enrich_threats` is idempotent — enriching an already-enriched
list again, with the `dread` mappings unchanged, reproduces exactly the
same `score` and `severity` fields with no accumulation or drift. -/
theorem C9_idempotent (threats enriched : List Threat)
    (h : enrich_threats threats = Except.ok enriched) :
    enrich_threats enriched = Except.ok enriched := by
  induction threats generalizing enriched with
  | nil =>
    simp only [enrich_threats, Except.ok.injEq] at h
    subst h
    rfl
  | cons t ts ih =>
    simp only [enrich_threats] at h
    cases h1 : enrichThreat t with
    | error e => rw [h1] at h; exact absurd h (by simp)
    | ok t' =>
      rw [h1] at h
      cases h2 : enrich_threats ts with
      | error e => rw [h2] at h; exact absurd h (by simp)
      | ok ts' =>
        rw [h2] at h
        simp only [Except.ok.injEq] at h
        subst h
        have ht := enrichThreat_idem t t' h1
        have hts := ih ts' h2
        simp only [enrich_threats, ht, hts]

/-- Witness for C9: re-enriching the already-enriched singleton list is a
fixed point. -/
theorem C9_witness :
    enrich_threats [⟨"T1", none, some 0.1, some 0, some "None"⟩] =
      Except.ok [⟨"T1", none, some 0.1, some 0, some "None"⟩] :=
  C9_idempotent [mkThreat "T1" (some 0.1)] [⟨"T1", none, some 0.1, some 0, some "None"⟩]
    (by norm_num [enrich_threats, enrichThreat, calculate_dread_score, dreadValues,
      floatList, floatOf, determine_severity, emptyDread, mkThreat])
